import Mathlib

/-!
Shallow embedding of the redhat-subscription-exporter main program
(`main.go`, the configurable variant): the subscription data model, the
paginated fetch loop `FetchAllSubscriptions`, the import-mode request
builder, the metrics projection loop, the export branch, and the
flag/environment configuration resolution of `init`/`main`.

Machine integers are modelled as `Int`/`Nat`; `time.Time` values are
modelled by their Unix-epoch seconds as an `Int` (the program only ever
observes a timestamp through `.Unix()` and through JSON round-tripping,
both of which preserve the instant).  `float64` gauge values are modelled
as `ℚ`.
-/

namespace Rhse

/-- The anonymous pool struct embedded in `Subscription.Pools`
(fields `consumed`, `id`, `quantity`, `type`). -/
structure Pool where
  consumed : Int
  id : String
  quantity : Int
  type : String
deriving DecidableEq, Repr

/-- `Subscription` from main.go: one subscription entry.  `EndDate` and
`StartDate` are `time.Time` values, modelled by their Unix seconds. -/
structure Subscription where
  ContractNumber : String
  EndDate : Int
  Quantity : String
  SKU : String
  StartDate : Int
  Status : String
  SubscriptionName : String
  SubscriptionNumber : String
  Pools : List Pool
deriving DecidableEq, Repr

/-- The pagination metadata of `subscriptionsResponse`. -/
structure Pagination where
  Count : Int
  Limit : Int
  Offset : Int
deriving DecidableEq, Repr

/-- `subscriptionsResponse` from main.go: the success envelope. -/
structure SubscriptionsResponse where
  Body : List Subscription
  Pagination : Pagination
deriving DecidableEq, Repr

/-- The inner `Error` struct of `errorResponse` from main.go. -/
structure ErrorBody where
  Code : Int
  Message : String
deriving DecidableEq, Repr

/-- One HTTP response of the listing endpoint, as `FetchAllSubscriptions`
observes it.  `transportErr` is a failed `client.Get`.  `resp errResp result`
is a body that was read: `errResp` is the outcome of unmarshalling the bytes
into `errorResponse` (`none` when that unmarshal itself errors; note a body
without an `error` field unmarshals fine into the zero value, i.e.
`some ⟨0, ""⟩`), and `result` is the outcome of unmarshalling the same bytes
into `subscriptionsResponse`. -/
inductive PageResp
  | transportErr
  | resp (errResp : Option ErrorBody) (result : Option SubscriptionsResponse)
deriving DecidableEq, Repr

/-- The errors `FetchAllSubscriptions` can return: a failed request, the
remote API error (code and message from the error envelope), or a body that
failed to decode as a success envelope. -/
inductive FetchError
  | requestFailed
  | apiError (code : Int) (message : String)
  | decodeFailed
deriving DecidableEq, Repr

/-- What one run of `FetchAllSubscriptions` did: the offsets it requested
(in request order; the URL is `baseURL?limit=50&offset=o`), and the outcome,
where `none` means the loop was still running when the step budget (`fuel`)
ran out. -/
structure FetchResult where
  requests : List Nat
  outcome : Option (Except FetchError (List Subscription))
deriving Repr

/-- The fixed page size `limit := 50` of `FetchAllSubscriptions`. -/
def limit : Nat := 50

/-- The error-envelope check of main.go lines 272-275: the loop aborts with
`API error code: message` exactly when the body unmarshals into
`errorResponse` and the message is non-empty. -/
def apiErrorOf (errResp : Option ErrorBody) : Option FetchError :=
  match errResp with
  | some e => if e.Message ≠ "" then some (.apiError e.Code e.Message) else none
  | none => none

/-- The body of the `for` loop of `FetchAllSubscriptions` (main.go lines
262-288), fuel-indexed.  The server is a function from the requested
`offset` to the page response.  Each iteration: issue the request, check the
error envelope, decode the success envelope, append `result.Body` to the
accumulator, stop if the page held fewer than `limit` records, otherwise
advance `offset` by `limit`. -/
def fetchLoop (server : Nat → PageResp) : Nat → Nat → List Subscription → FetchResult
  | 0, _, _ => { requests := [], outcome := none }
  | fuel + 1, offset, allSubs =>
    match server offset with
    | .transportErr => { requests := [offset], outcome := some (.error .requestFailed) }
    | .resp errResp result =>
      match apiErrorOf errResp with
      | some e => { requests := [offset], outcome := some (.error e) }
      | none =>
        match result with
        | none => { requests := [offset], outcome := some (.error .decodeFailed) }
        | some r =>
          let allSubs := allSubs ++ r.Body
          if r.Body.length < limit then
            { requests := [offset], outcome := some (.ok allSubs) }
          else
            let rest := fetchLoop server fuel (offset + limit) allSubs
            { requests := offset :: rest.requests, outcome := rest.outcome }

/-- `FetchAllSubscriptions` from main.go lines 257-291: starts at offset 0
with an empty accumulator.  `fuel` bounds the number of iterations the model
is allowed to take; the source loop has no such bound, which is expressed by
quantifying over `fuel`. -/
def FetchAllSubscriptions (server : Nat → PageResp) (fuel : Nat) : FetchResult :=
  fetchLoop server fuel 0 []

/-- Two page responses that agree except possibly in the pagination metadata
of a successfully decoded success envelope. -/
def sameModMeta : PageResp → PageResp → Prop
  | .transportErr, .transportErr => True
  | .resp e₁ r₁, .resp e₂ r₂ =>
      e₁ = e₂ ∧ r₁.map SubscriptionsResponse.Body = r₂.map SubscriptionsResponse.Body
  | _, _ => False

/-! ### Metrics projection (main.go lines 362-371) -/

/-- One gauge `Set` call, with its labels and value, as performed by the
projection loop: `info` carries the five descriptive labels and value 1;
`quantity`, `start` and `endTime` (the `redhat_subscription_end` gauge) are
labeled by the subscription number. -/
inductive GaugeObs
  | info (contractNumber subscriptionNumber subscriptionName status sku : String) (value : ℚ)
  | quantity (subscriptionNumber : String) (value : ℚ)
  | start (subscriptionNumber : String) (value : ℚ)
  | endTime (subscriptionNumber : String) (value : ℚ)
deriving DecidableEq, Repr

/-- The body of the projection loop for one record (main.go lines 362-371):
`strconv.ParseFloat` is abstracted as `parseFloat : String → Option ℚ`
(`none` = parse error).  On parse error the record is skipped with
`continue`; otherwise the four gauges are set in program order.  The start
and end values are `float64(s.StartDate.Unix())` and
`float64(s.EndDate.Unix())`, i.e. the modelled Unix seconds. -/
def projectRecord (parseFloat : String → Option ℚ) (s : Subscription) : List GaugeObs :=
  match parseFloat s.Quantity with
  | none => []
  | some q =>
      [ .info s.ContractNumber s.SubscriptionNumber s.SubscriptionName s.Status s.SKU 1,
        .quantity s.SubscriptionNumber q,
        .start s.SubscriptionNumber (s.StartDate : ℚ),
        .endTime s.SubscriptionNumber (s.EndDate : ℚ) ]

/-- The whole `for _, s := range subs` projection pass: the gauge
observations of one cycle, in program order. -/
def metricsProject (parseFloat : String → Option ℚ) (subs : List Subscription) : List GaugeObs :=
  (subs.map (projectRecord parseFloat)).flatten

/-! ### Configuration resolution (`getEnv`, `getEnvInt`, `init`, `main`) -/

/-- `DefaultTokenURL` from main.go. -/
def DefaultTokenURL : String :=
  "https://sso.redhat.com/auth/realms/redhat-external/protocol/openid-connect/token"

/-- `DefaultApiURL` from main.go. -/
def DefaultApiURL : String :=
  "https://api.access.redhat.com/management/v1/subscriptions"

/-- `getEnv` from main.go: the environment is a total map from names to
strings, `""` meaning unset (as `os.Getenv` reports it). -/
def getEnv (env : String → String) (key fallback : String) : String :=
  if env key ≠ "" then env key else fallback

/-- `strconv.ParseInt(val, 10, 64)`: optional sign, one or more decimal
digits, value within the signed 64-bit range; anything else errors. -/
def parseInt64 (s : String) : Option Int :=
  let signDigits : Int × List Char :=
    match s.data with
    | '+' :: rest => (1, rest)
    | '-' :: rest => (-1, rest)
    | l => (1, l)
  let sign := signDigits.1
  let digits := signDigits.2
  if digits.isEmpty then none
  else if digits.all (fun c => c.isDigit) then
    let v : Int := sign * (digits.foldl (fun acc c => 10 * acc + (c.toNat - 48)) 0 : Nat)
    if -(2 ^ 63) ≤ v ∧ v ≤ 2 ^ 63 - 1 then some v else none
  else none

/-- `getEnvInt` from main.go: the parsed value when the variable is set and
parses, the fallback otherwise. -/
def getEnvInt (env : String → String) (key : String) (fallback : Int) : Int :=
  if env key ≠ "" then
    match parseInt64 (env key) with
    | some i => i
    | none => fallback
  else fallback

/-- The four command-line flags registered in `init` (main.go lines
394-400): `-export`, `-import-url`, `-import-username`, `-import-password`.
Each field holds the value the flag parsed (its default is `""`). -/
structure Flags where
  exportToFile : String
  importUrl : String
  importUsername : String
  importPassword : String
deriving DecidableEq, Repr

/-- The arguments `main` passes to `metricsLoop` (main.go line 410);
`exportFile` models the parameter named `export` in the source, which is a
reserved word here. -/
structure Config where
  token : String
  tokenUrl : String
  apiUrl : String
  exportFile : String
  jsonUrl : String
  jsonUser : String
  jsonPass : String
  interval : Int
deriving DecidableEq, Repr

/-- The configuration `main` resolves (main.go line 410): token, token URL,
API URL and interval come from the environment with fallbacks; the export
path and the import URL/credentials are passed straight from the flags —
no environment variable is consulted for them. -/
def mainConfig (env : String → String) (flags : Flags) : Config :=
  { token := getEnv env "RH_OFFLINE_TOKEN" ""
    tokenUrl := getEnv env "RH_TOKEN_URL" DefaultTokenURL
    apiUrl := getEnv env "RH_API_URL" DefaultApiURL
    exportFile := flags.exportToFile
    jsonUrl := flags.importUrl
    jsonUser := flags.importUsername
    jsonPass := flags.importPassword
    interval := getEnvInt env "RH_FETCH_INTERVAL" 30 }

/-- How `main` starts (main.go lines 402-410): if `RH_OFFLINE_TOKEN`
resolves to `""` it prints a message and calls `os.Exit(1)` before any
client is built or any fetch is issued; otherwise it proceeds into
`metricsLoop` with the resolved configuration. -/
inductive MainOutcome
  | missingToken
  | run (cfg : Config)
deriving DecidableEq, Repr

/-- The startup decision of `main` (main.go lines 402-410). -/
def goMain (env : String → String) (flags : Flags) : MainOutcome :=
  let token := getEnv env "RH_OFFLINE_TOKEN" ""
  if token = "" then .missingToken else .run (mainConfig env flags)

/-- The HTTP client `metricsLoop` builds (main.go lines 294-312): an OAuth2
client (client id `rhsm-api`, the token URL, the offline token as refresh
token) when no import URL is configured, a plain `http.Client` otherwise. -/
inductive ClientKind
  | oauth (clientID tokenUrl refreshToken : String)
  | plain
deriving DecidableEq, Repr

/-- The client selection of `metricsLoop` (main.go lines 296-312). -/
def buildClient (token tokenUrl jsonUrl : String) : ClientKind :=
  if jsonUrl = "" then .oauth "rhsm-api" tokenUrl token else .plain

/-! ### Import-mode request (main.go lines 325-336) -/

/-- An outbound HTTP request as built by the import branch: method, URL and
the optional basic-auth credentials attached by `req.SetBasicAuth`. -/
structure Request where
  method : String
  url : String
  basicAuth : Option (String × String)
deriving DecidableEq, Repr

/-- The request the import branch builds (main.go lines 325-332):
`http.NewRequest("GET", jsonUrl, nil)`, then `SetBasicAuth` exactly when
both the username and the password are non-empty. -/
def importRequest (jsonUrl jsonUser jsonPass : String) : Request :=
  { method := "GET"
    url := jsonUrl
    basicAuth := if jsonUser ≠ "" ∧ jsonPass ≠ "" then some (jsonUser, jsonPass) else none }

/-- All requests one pass of the import branch issues: the single
`client.Do(req)` of main.go line 333. -/
def importFetchRequests (jsonUrl jsonUser jsonPass : String) : List Request :=
  [importRequest jsonUrl jsonUser jsonPass]

/-! ### JSON marshalling (`encoding/json` on `Subscription`) -/

/-- JSON values as this program produces and consumes them.  `time t` is an
RFC3339 timestamp string denoting the instant `t` (Unix seconds): Go
marshals a `time.Time` to such a string and parses it back to the same
instant. -/
inductive Json
  | null
  | str (s : String)
  | num (n : Int)
  | time (t : Int)
  | arr (elems : List Json)
  | obj (fields : List (String × Json))

/-- `json.Marshal` of one pool entry: the struct fields in declaration
order, under their `json:` tag names. -/
def marshalPool (p : Pool) : Json :=
  .obj [("consumed", .num p.consumed), ("id", .str p.id),
        ("quantity", .num p.quantity), ("type", .str p.type)]

/-- `json.Marshal` of one `Subscription`: the struct fields in declaration
order, under their `json:` tag names. -/
def marshalSubscription (s : Subscription) : Json :=
  .obj [("contractNumber", .str s.ContractNumber),
        ("endDate", .time s.EndDate),
        ("quantity", .str s.Quantity),
        ("sku", .str s.SKU),
        ("startDate", .time s.StartDate),
        ("status", .str s.Status),
        ("subscriptionName", .str s.SubscriptionName),
        ("subscriptionNumber", .str s.SubscriptionNumber),
        ("pools", .arr (s.Pools.map marshalPool))]

/-- `json.MarshalIndent(subs, "", "  ")` of main.go line 348, at the level
of the JSON tree it renders: the array of the marshalled records. -/
def marshalIndentSubs (subs : List Subscription) : Json :=
  .arr (subs.map marshalSubscription)

/-- Field lookup during `json.Unmarshal` of an object: when a key appears
more than once the decoder overwrites, so the last occurrence wins.  (Go
also matches field names case-insensitively as a fallback; the keys this
program meets are exact, so exact match is what runs.) -/
def lookupField (fields : List (String × Json)) (name : String) : Option Json :=
  (fields.reverse.find? (fun f => f.1 == name)).map (fun f => f.2)

/-- Decoding a string struct field: a missing key or a JSON `null` leaves
the zero value `""`; a non-string value is an unmarshal type error. -/
def fieldString (fields : List (String × Json)) (name : String) : Option String :=
  match lookupField fields name with
  | none => some ""
  | some .null => some ""
  | some (.str s) => some s
  | some _ => none

/-- The Unix seconds of the zero `time.Time` (January 1, year 1, UTC): the
value a missing timestamp field leaves behind. -/
def zeroTimeUnix : Int := -62135596800

/-- Decoding a `time.Time` struct field: a missing key or `null` leaves the
zero time; a timestamp string parses to its instant; anything else errors. -/
def fieldTime (fields : List (String × Json)) (name : String) : Option Int :=
  match lookupField fields name with
  | none => some zeroTimeUnix
  | some .null => some zeroTimeUnix
  | some (.time t) => some t
  | some _ => none

/-- Decoding an `int` struct field: missing or `null` leaves 0; a JSON
integer parses; anything else errors. -/
def fieldNum (fields : List (String × Json)) (name : String) : Option Int :=
  match lookupField fields name with
  | none => some 0
  | some .null => some 0
  | some (.num n) => some n
  | some _ => none

/-- `json.Unmarshal` of one pool object. -/
def unmarshalPool (j : Json) : Option Pool :=
  match j with
  | .obj fields => do
      let consumed ← fieldNum fields "consumed"
      let id ← fieldString fields "id"
      let quantity ← fieldNum fields "quantity"
      let ty ← fieldString fields "type"
      some { consumed := consumed, id := id, quantity := quantity, type := ty }
  | _ => none

/-- Elementwise decoding of a JSON array into a slice: any element error
fails the whole unmarshal. -/
def unmarshalList {α : Type} (f : Json → Option α) : List Json → Option (List α)
  | [] => some []
  | j :: rest => do
      let x ← f j
      let xs ← unmarshalList f rest
      some (x :: xs)

/-- Decoding the `pools` slice field: missing or `null` leaves the nil
slice; an array decodes elementwise; anything else errors. -/
def fieldPools (fields : List (String × Json)) (name : String) : Option (List Pool) :=
  match lookupField fields name with
  | none => some []
  | some .null => some []
  | some (.arr elems) => unmarshalList unmarshalPool elems
  | some _ => none

/-- `json.Unmarshal` of one `Subscription` object. -/
def unmarshalSubscription (j : Json) : Option Subscription :=
  match j with
  | .obj fields => do
      let contractNumber ← fieldString fields "contractNumber"
      let endDate ← fieldTime fields "endDate"
      let quantity ← fieldString fields "quantity"
      let sku ← fieldString fields "sku"
      let startDate ← fieldTime fields "startDate"
      let status ← fieldString fields "status"
      let subscriptionName ← fieldString fields "subscriptionName"
      let subscriptionNumber ← fieldString fields "subscriptionNumber"
      let pools ← fieldPools fields "pools"
      some { ContractNumber := contractNumber, EndDate := endDate,
             Quantity := quantity, SKU := sku, StartDate := startDate,
             Status := status, SubscriptionName := subscriptionName,
             SubscriptionNumber := subscriptionNumber, Pools := pools }
  | _ => none

/-- `json.Unmarshal(body, &subs)` of the import branch (main.go line 342):
the body must be a JSON array of subscription objects. -/
def unmarshalSubscriptions (j : Json) : Option (List Subscription) :=
  match j with
  | .arr elems => unmarshalList unmarshalSubscription elems
  | _ => none

/-! ### Export branch (main.go lines 347-360 and 412-418) -/

/-- What one run in export mode did: how many fetches the cycle performed,
what was written where (`none` when no complete write happened), and the
process exit status (`log.Fatal` exits 1; `os.Exit(0)` on success). -/
structure ExportRun where
  fetchCount : Nat
  written : Option (String × Json)
  exitCode : Nat

/-- The export branch of `metricsLoop` together with the `done`-channel
handling of `main` (main.go lines 347-360 and 412-418).  The single fetch
already performed is given as its result; `write` models `os.WriteFile`
(`false` = I/O error).  A fetch error hits `log.Fatal` inside the loop
(exit 1); a write error is sent on `done` and `main` calls `log.Fatal`
(exit 1); on success `main` calls `os.Exit(0)`.  In every case the branch
returns after the first iteration: exactly one fetch. -/
def runExportMode (fetchResult : Except FetchError (List Subscription))
    (write : String → Json → Bool) (exportPath : String) : ExportRun :=
  match fetchResult with
  | .error _ => { fetchCount := 1, written := none, exitCode := 1 }
  | .ok subs =>
      let data := marshalIndentSubs subs
      if write exportPath data then
        { fetchCount := 1, written := some (exportPath, data), exitCode := 0 }
      else
        { fetchCount := 1, written := none, exitCode := 1 }

/-- The top-level keys of a JSON object. -/
def jsonObjKeys : Json → Option (List String)
  | .obj fields => some (fields.map (fun f => f.1))
  | _ => none

/-! ### Concrete fixtures (used by the witness theorems) -/

/-- A concrete subscription record. -/
def wSub : Subscription :=
  { ContractNumber := "c-100", EndDate := 1731536000, Quantity := "10",
    SKU := "SKU100", StartDate := 1700000000, Status := "Active",
    SubscriptionName := "Name A", SubscriptionNumber := "s-100",
    Pools := [{ consumed := 1, id := "pool-1", quantity := 2, type := "NORMAL" }] }

/-- Concrete pagination metadata. -/
def wMeta : Pagination := { Count := 50, Limit := 50, Offset := 0 }

/-- Page bodies of a two-page server: a full first page, a short second. -/
def wBodies : Nat → List Subscription := fun i =>
  if i = 0 then List.replicate limit wSub else [wSub]

/-- The error-envelope unmarshal results of the two-page server: the first
body carries no `error` key (zero value), the second fails that unmarshal. -/
def wErrs : Nat → Option ErrorBody := fun i =>
  if i = 0 then some { Code := 0, Message := "" } else none

/-- Constant pagination metadata per page. -/
def wMetas : Nat → Pagination := fun _ => wMeta

/-- A server answering every offset: page 0 is full, later pages short. -/
def wServer : Nat → PageResp := fun offset =>
  if offset = 0 then .resp (wErrs 0) (some { Body := wBodies 0, Pagination := wMeta })
  else .resp none (some { Body := [wSub], Pagination := wMeta })

/-- A server answering the error envelope `code 404, message boom` at every
offset. -/
def wErrServer : Nat → PageResp := fun _ =>
  .resp (some { Code := 404, Message := "boom" }) none

/-- A server whose every page is exactly full: 50 records each. -/
def wFullServer : Nat → PageResp := fun _ =>
  .resp none (some { Body := List.replicate limit wSub, Pagination := wMeta })

/-- The page bodies of `wFullServer`. -/
def wFullBodies : Nat → List Subscription := fun _ => List.replicate limit wSub

/-- The error-envelope results of `wFullServer`. -/
def wFullErrs : Nat → Option ErrorBody := fun _ => none

/-- A concrete `strconv.ParseFloat` fragment covering the spec examples:
`"10"` parses to 10, `"3.5"` to 3.5, everything else errors. -/
def wParse : String → Option ℚ := fun s =>
  if s = "10" then some 10 else if s = "3.5" then some (7 / 2) else none

/-- `wSub` with quantity `"10"`. -/
def wSub10 : Subscription := wSub

/-- A record whose quantity `"abc"` does not parse. -/
def wSubAbc : Subscription := { wSub with Quantity := "abc", SubscriptionNumber := "s-abc" }

/-- A record with quantity `"3.5"`. -/
def wSub35 : Subscription := { wSub with Quantity := "3.5", SubscriptionNumber := "s-35" }

/-- An environment setting exactly the four flag-overriding variables the
README documents. -/
def wEnvOverrides : String → String := fun k =>
  if k = "RH_EXPORT_FILE" then "subs.json"
  else if k = "RH_IMPORT_URL" then "http://example.com/subs.json"
  else if k = "RH_IMPORT_USERNAME" then "alice"
  else if k = "RH_IMPORT_PASSWORD" then "hunter2"
  else ""

/-- All flags left at their `""` defaults. -/
def wEmptyFlags : Flags :=
  { exportToFile := "", importUrl := "", importUsername := "", importPassword := "" }

/-- A completely empty environment. -/
def wEnvUnset : String → String := fun _ => ""

/-- Flags selecting import mode. -/
def wImportFlags : Flags :=
  { exportToFile := "", importUrl := "http://example.com/subs.json",
    importUsername := "", importPassword := "" }

/-- A file write that always succeeds. -/
def wWriteOk : String → Json → Bool := fun _ _ => true

/-! ## Lemmas about the fetch loop -/

/-- Unfolding one iteration that hits a full page: the offset is recorded
and the loop continues at `offset + limit` with the page appended. -/
lemma fetchLoop_step_full (server : Nat → PageResp) (offset fuel : Nat)
    (acc : List Subscription) (errR : Option ErrorBody) (r : SubscriptionsResponse)
    (hs : server offset = .resp errR (some r))
    (he : apiErrorOf errR = none)
    (hlen : ¬ r.Body.length < limit) :
    fetchLoop server (fuel + 1) offset acc =
      { requests := offset :: (fetchLoop server fuel (offset + limit) (acc ++ r.Body)).requests,
        outcome := (fetchLoop server fuel (offset + limit) (acc ++ r.Body)).outcome } := by
  simp [fetchLoop, hs, he, hlen]

/-- Unfolding one iteration that hits a short page: the loop stops and
returns the accumulator with the page appended. -/
lemma fetchLoop_stop_short (server : Nat → PageResp) (offset fuel : Nat)
    (acc : List Subscription) (errR : Option ErrorBody) (r : SubscriptionsResponse)
    (hs : server offset = .resp errR (some r))
    (he : apiErrorOf errR = none)
    (hlen : r.Body.length < limit) :
    fetchLoop server (fuel + 1) offset acc =
      { requests := [offset], outcome := some (.ok (acc ++ r.Body)) } := by
  simp [fetchLoop, hs, he, hlen]

/-- Unfolding one iteration that hits an error envelope with a non-empty
message: the loop aborts with the remote code and message. -/
lemma fetchLoop_stop_apiError (server : Nat → PageResp) (offset fuel : Nat)
    (acc : List Subscription) (e : ErrorBody) (res : Option SubscriptionsResponse)
    (hs : server offset = .resp (some e) res)
    (hmsg : e.Message ≠ "") :
    fetchLoop server (fuel + 1) offset acc =
      { requests := [offset], outcome := some (.error (.apiError e.Code e.Message)) } := by
  simp [fetchLoop, hs, apiErrorOf, hmsg]

/-- Running the loop across `d` consecutive full pages starting at page
index `n`: all `d` offsets are requested in order and the loop continues at
page `n + d` with all records appended. -/
lemma fetchLoop_run (server : Nat → PageResp) (bodies : Nat → List Subscription)
    (metas : Nat → Pagination) (errs : Nat → Option ErrorBody) (d : Nat) :
    ∀ (n fuel : Nat) (acc : List Subscription),
      (∀ i, n ≤ i → i < n + d →
        server (limit * i) = .resp (errs i) (some { Body := bodies i, Pagination := metas i })) →
      (∀ i, n ≤ i → i < n + d → apiErrorOf (errs i) = none) →
      (∀ i, n ≤ i → i < n + d → ¬ (bodies i).length < limit) →
      fetchLoop server (fuel + d) (limit * n) acc =
        { requests := (List.range' n d).map (fun i => limit * i) ++
            (fetchLoop server fuel (limit * (n + d))
              (acc ++ ((List.range' n d).map bodies).flatten)).requests,
          outcome := (fetchLoop server fuel (limit * (n + d))
              (acc ++ ((List.range' n d).map bodies).flatten)).outcome } := by
  induction d with
  | zero =>
      intro n fuel acc _ _ _
      simp
  | succ d ih =>
      intro n fuel acc hp he hl
      have hstep := fetchLoop_step_full server (limit * n) (fuel + d) acc (errs n)
        { Body := bodies n, Pagination := metas n }
        (hp n le_rfl (by omega)) (he n le_rfl (by omega)) (hl n le_rfl (by omega))
      have hfuel : fuel + (d + 1) = (fuel + d) + 1 := rfl
      rw [hfuel, hstep]
      have harg : limit * n + limit = limit * (n + 1) := by ring
      rw [harg]
      have ih' := ih (n + 1) fuel (acc ++ bodies n)
        (fun i h1 h2 => hp i (by omega) (by omega))
        (fun i h1 h2 => he i (by omega) (by omega))
        (fun i h1 h2 => hl i (by omega) (by omega))
      rw [ih']
      have hidx : n + 1 + d = n + (d + 1) := by omega
      rw [hidx]
      simp [List.range'_succ, List.append_assoc]

/-- The full behaviour when the first short page is page `k` and every page
up to it decodes cleanly: the requested offsets are exactly
`0, limit, …, limit * k` and the outcome is the concatenation of all
bodies, in request order. -/
lemma fetchAll_short_at (server : Nat → PageResp) (bodies : Nat → List Subscription)
    (metas : Nat → Pagination) (errs : Nat → Option ErrorBody) (k : Nat)
    (hp : ∀ i ≤ k,
      server (limit * i) = .resp (errs i) (some { Body := bodies i, Pagination := metas i }))
    (he : ∀ i ≤ k, apiErrorOf (errs i) = none)
    (hfull : ∀ i < k, ¬ (bodies i).length < limit)
    (hshort : (bodies k).length < limit)
    (fuel : Nat) (hfuel : k + 1 ≤ fuel) :
    FetchAllSubscriptions server fuel =
      { requests := (List.range (k + 1)).map (fun i => limit * i),
        outcome := some (.ok (((List.range (k + 1)).map bodies).flatten)) } := by
  obtain ⟨m, rfl⟩ : ∃ m, fuel = (m + 1) + k := ⟨fuel - k - 1, by omega⟩
  unfold FetchAllSubscriptions
  have h0 : (0 : Nat) = limit * 0 := by simp
  rw [h0, fetchLoop_run server bodies metas errs k 0 (m + 1) []
    (fun i _ h2 => hp i (by omega))
    (fun i _ h2 => he i (by omega))
    (fun i _ h2 => hfull i (by omega))]
  rw [fetchLoop_stop_short server (limit * (0 + k)) m _ (errs k)
    { Body := bodies k, Pagination := metas k }
    (by rw [Nat.zero_add]; exact hp k le_rfl)
    (he k le_rfl) hshort]
  have hreq : (List.range (k + 1)).map (fun i => limit * i)
      = (List.range' 0 k).map (fun i => limit * i) ++ [limit * k] := by
    rw [List.range_eq_range', List.range'_concat]
    simp
  have hbod : ((List.range (k + 1)).map bodies).flatten
      = ((List.range' 0 k).map bodies).flatten ++ bodies k := by
    rw [List.range_eq_range', List.range'_concat]
    simp
  rw [hreq, hbod]
  simp


/-- A server whose every page is exactly full never lets the loop stop:
for every step budget the loop is still running when it runs out. -/
lemma fetchLoop_never_stops (server : Nat → PageResp) (bodies : Nat → List Subscription)
    (metas : Nat → Pagination) (errs : Nat → Option ErrorBody)
    (hp : ∀ i, server (limit * i) = .resp (errs i) (some { Body := bodies i, Pagination := metas i }))
    (he : ∀ i, apiErrorOf (errs i) = none)
    (hlen : ∀ i, (bodies i).length = limit) :
    ∀ (fuel n : Nat) (acc : List Subscription),
      (fetchLoop server fuel (limit * n) acc).outcome = none := by
  intro fuel
  induction fuel with
  | zero => intro n acc; rfl
  | succ fuel ih =>
      intro n acc
      rw [fetchLoop_step_full server (limit * n) fuel acc (errs n)
        { Body := bodies n, Pagination := metas n } (hp n) (he n) (by simp [hlen n])]
      have harg : limit * n + limit = limit * (n + 1) := by ring
      rw [harg]
      exact ih (n + 1) _

/-- The loop never inspects the pagination metadata: two servers whose
responses agree up to that metadata produce identical runs. -/
lemma fetchLoop_meta_independent (s₁ s₂ : Nat → PageResp)
    (h : ∀ o, sameModMeta (s₁ o) (s₂ o)) :
    ∀ (fuel offset : Nat) (acc : List Subscription),
      fetchLoop s₁ fuel offset acc = fetchLoop s₂ fuel offset acc := by
  intro fuel
  induction fuel with
  | zero => intro offset acc; rfl
  | succ fuel ih =>
      intro offset acc
      have ho := h offset
      cases h1 : s₁ offset with
      | transportErr =>
          cases h2 : s₂ offset with
          | transportErr => simp [fetchLoop, h1, h2]
          | resp e r =>
              rw [h1, h2] at ho
              exact absurd ho (by simp [sameModMeta])
      | resp e₁ r₁ =>
          cases h2 : s₂ offset with
          | transportErr =>
              rw [h1, h2] at ho
              exact absurd ho (by simp [sameModMeta])
          | resp e₂ r₂ =>
              rw [h1, h2] at ho
              obtain ⟨heq, hbody⟩ := ho
              subst heq
              cases r₁ with
              | none =>
                  cases r₂ with
                  | none => simp [fetchLoop, h1, h2]
                  | some r => simp at hbody
              | some r₁ =>
                  cases r₂ with
                  | none => simp at hbody
                  | some r₂ =>
                      have hb : r₁.Body = r₂.Body := by simpa using hbody
                      cases hae : apiErrorOf e₁ with
                      | some err => simp [fetchLoop, h1, h2, hae]
                      | none =>
                          by_cases hl : r₁.Body.length < limit
                          · rw [fetchLoop_stop_short s₁ offset fuel acc e₁ r₁ h1 hae hl,
                              fetchLoop_stop_short s₂ offset fuel acc e₁ r₂ h2 hae (hb ▸ hl),
                              hb]
                          · rw [fetchLoop_step_full s₁ offset fuel acc e₁ r₁ h1 hae hl,
                              fetchLoop_step_full s₂ offset fuel acc e₁ r₂ h2 hae (hb ▸ hl),
                              hb, ih]

/-! ## Claim theorems -/

/-- Claim C1: for every sequence of page responses, `FetchAllSubscriptions`
issues requests starting at offset 0 with fixed page size 50, each
subsequent request offset exactly 50 greater than the previous (so every
requested offset is a multiple of 50), stops at the first page whose record
list has strictly fewer than 50 records, and returns the concatenation of
all page record lists in request order. -/
theorem C1_pagination_walk (server : Nat → PageResp) (bodies : Nat → List Subscription)
    (metas : Nat → Pagination) (errs : Nat → Option ErrorBody) (k : Nat)
    (hp : ∀ i ≤ k,
      server (limit * i) = .resp (errs i) (some { Body := bodies i, Pagination := metas i }))
    (he : ∀ i ≤ k, apiErrorOf (errs i) = none)
    (hfull : ∀ i < k, ¬ (bodies i).length < limit)
    (hshort : (bodies k).length < limit)
    (fuel : Nat) (hfuel : k + 1 ≤ fuel) :
    FetchAllSubscriptions server fuel =
      { requests := (List.range (k + 1)).map (fun i => limit * i),
        outcome := some (.ok (((List.range (k + 1)).map bodies).flatten)) } ∧
    (FetchAllSubscriptions server fuel).requests.head? = some 0 ∧
    (∀ o ∈ (FetchAllSubscriptions server fuel).requests, limit ∣ o) ∧
    List.Chain' (fun a b => b = a + limit) (FetchAllSubscriptions server fuel).requests := by
  have h1 := fetchAll_short_at server bodies metas errs k hp he hfull hshort fuel hfuel
  refine ⟨h1, ?_, ?_, ?_⟩
  · rw [h1, List.range_succ_eq_map]
    simp
  · intro o ho
    rw [h1] at ho
    simp only [List.mem_map, List.mem_range] at ho
    obtain ⟨i, _, rfl⟩ := ho
    exact ⟨i, rfl⟩
  · rw [h1]
    simp only [List.chain'_map]
    rw [List.chain'_range_succ]
    intro m _
    rw [Nat.succ_eq_add_one]
    ring

/-- Witness for C1: the two-page server (a full page of 50 records, then a
single-record page) requests offsets 0 and 50 and returns all 51 records. -/
theorem C1_pagination_walk_witness :
    FetchAllSubscriptions wServer 2 =
      { requests := (List.range 2).map (fun i => limit * i),
        outcome := some (.ok (((List.range 2).map wBodies).flatten)) } :=
  (C1_pagination_walk wServer wBodies wMetas wErrs 1
    (by intro i hi; interval_cases i <;> rfl)
    (by intro i hi; interval_cases i <;> rfl)
    (by intro i hi; interval_cases i; simp [wBodies, limit])
    (by simp [wBodies, limit])
    2 (by omega)).1

/-- Claim C2: if any page's body parses as an error envelope with a
non-empty message (all earlier pages being full pages), the fetch returns
only an error carrying the remote code and message — in particular no
accumulated record is ever returned. -/
theorem C2_error_envelope_aborts (server : Nat → PageResp)
    (bodies : Nat → List Subscription) (metas : Nat → Pagination)
    (errs : Nat → Option ErrorBody) (j : Nat) (e : ErrorBody)
    (res : Option SubscriptionsResponse)
    (hp : ∀ i < j,
      server (limit * i) = .resp (errs i) (some { Body := bodies i, Pagination := metas i }))
    (he : ∀ i < j, apiErrorOf (errs i) = none)
    (hfull : ∀ i < j, ¬ (bodies i).length < limit)
    (herr : server (limit * j) = .resp (some e) res)
    (hmsg : e.Message ≠ "")
    (fuel : Nat) (hfuel : j + 1 ≤ fuel) :
    FetchAllSubscriptions server fuel =
      { requests := (List.range (j + 1)).map (fun i => limit * i),
        outcome := some (.error (.apiError e.Code e.Message)) } ∧
    ∀ subs, (FetchAllSubscriptions server fuel).outcome ≠ some (.ok subs) := by
  obtain ⟨m, rfl⟩ : ∃ m, fuel = (m + 1) + j := ⟨fuel - j - 1, by omega⟩
  have h1 : FetchAllSubscriptions server ((m + 1) + j) =
      { requests := (List.range (j + 1)).map (fun i => limit * i),
        outcome := some (.error (.apiError e.Code e.Message)) } := by
    unfold FetchAllSubscriptions
    have h0 : (0 : Nat) = limit * 0 := by simp
    rw [h0, fetchLoop_run server bodies metas errs j 0 (m + 1) []
      (fun i _ h2 => hp i (by omega))
      (fun i _ h2 => he i (by omega))
      (fun i _ h2 => hfull i (by omega))]
    rw [fetchLoop_stop_apiError server (limit * (0 + j)) m _ e res
      (by rw [Nat.zero_add]; exact herr) hmsg]
    have hreq : (List.range (j + 1)).map (fun i => limit * i)
        = (List.range' 0 j).map (fun i => limit * i) ++ [limit * j] := by
      rw [List.range_eq_range', List.range'_concat]
      simp
    rw [hreq]
    simp
  exact ⟨h1, by rw [h1]; simp⟩

/-- Witness for C2: a server answering the error envelope with code 404 and
message `boom` at offset 0 makes the fetch return exactly that error. -/
theorem C2_error_envelope_aborts_witness :
    FetchAllSubscriptions wErrServer 1 =
      { requests := (List.range 1).map (fun i => limit * i),
        outcome := some (.error (.apiError 404 "boom")) } :=
  (C2_error_envelope_aborts wErrServer wBodies wMetas wErrs 0
    { Code := 404, Message := "boom" } none
    (fun i hi => absurd hi (Nat.not_lt_zero i))
    (fun i hi => absurd hi (Nat.not_lt_zero i))
    (fun i hi => absurd hi (Nat.not_lt_zero i))
    rfl
    (by decide)
    1 (by omega)).1

/-- Claim C9: for servers that answer every offset with a decodable success
page, `FetchAllSubscriptions` terminates if and only if some page returns
strictly fewer than 50 records — the length check is the sole termination
condition.  A server whose every page holds exactly 50 records loops
forever (outcome `none` for every step budget), some short page makes a
sufficient budget terminate, and the pagination metadata is ignored
entirely (two servers differing only in it produce identical runs). -/
theorem C9_length_check_termination :
    (∀ (server : Nat → PageResp) (bodies : Nat → List Subscription)
        (metas : Nat → Pagination) (errs : Nat → Option ErrorBody),
      (∀ i, server (limit * i) = .resp (errs i) (some { Body := bodies i, Pagination := metas i })) →
      (∀ i, apiErrorOf (errs i) = none) →
      (∀ i, (bodies i).length = limit) →
      ∀ fuel, (FetchAllSubscriptions server fuel).outcome = none) ∧
    (∀ (server : Nat → PageResp) (bodies : Nat → List Subscription)
        (metas : Nat → Pagination) (errs : Nat → Option ErrorBody),
      (∀ i, server (limit * i) = .resp (errs i) (some { Body := bodies i, Pagination := metas i })) →
      (∀ i, apiErrorOf (errs i) = none) →
      (∃ i, (bodies i).length < limit) →
      ∃ fuel, (FetchAllSubscriptions server fuel).outcome ≠ none) ∧
    (∀ s₁ s₂ : Nat → PageResp, (∀ o, sameModMeta (s₁ o) (s₂ o)) →
      ∀ fuel, FetchAllSubscriptions s₁ fuel = FetchAllSubscriptions s₂ fuel) := by
  refine ⟨?_, ?_, ?_⟩
  · intro server bodies metas errs hp he hlen fuel
    have h0 : (0 : Nat) = limit * 0 := by simp
    unfold FetchAllSubscriptions
    rw [h0]
    exact fetchLoop_never_stops server bodies metas errs hp he hlen fuel 0 []
  · intro server bodies metas errs hp he hex
    have hk := Nat.find_spec hex
    refine ⟨Nat.find hex + 1, ?_⟩
    have h1 := fetchAll_short_at server bodies metas errs (Nat.find hex)
      (fun i _ => hp i) (fun i _ => he i)
      (fun i hi => Nat.find_min hex hi) hk (Nat.find hex + 1) le_rfl
    rw [h1]
    simp
  · intro s₁ s₂ h fuel
    unfold FetchAllSubscriptions
    exact fetchLoop_meta_independent s₁ s₂ h fuel 0 []

/-- Witness for C9: the all-full-pages server is still running after 5
iterations, and the two-page server terminates. -/
theorem C9_length_check_termination_witness :
    (FetchAllSubscriptions wFullServer 5).outcome = none ∧
    ∃ fuel, (FetchAllSubscriptions wServer fuel).outcome ≠ none := by
  constructor
  · exact C9_length_check_termination.1 wFullServer wFullBodies wMetas wFullErrs
      (fun i => rfl) (fun i => rfl) (fun i => by simp [wFullBodies, limit]) 5
  · exact C9_length_check_termination.2.1 wServer wBodies wMetas wErrs
      (by
        intro i
        cases i with
        | zero => rfl
        | succ n => simp [wServer, wBodies, wErrs, wMetas, limit])
      (by
        intro i
        cases i with
        | zero => rfl
        | succ n => rfl)
      ⟨1, by simp [wBodies, limit]⟩

/-- Claim C4: a record whose quantity string does not parse as a
floating-point number produces no gauge observation at all (neither
quantity, nor info, nor start, nor end), raises no error, and leaves the
processing of the surrounding records unaffected. -/
theorem C4_unparseable_quantity_skipped (parseFloat : String → Option ℚ)
    (pre post : List Subscription) (r : Subscription)
    (h : parseFloat r.Quantity = none) :
    projectRecord parseFloat r = [] ∧
    metricsProject parseFloat (pre ++ r :: post) =
      metricsProject parseFloat pre ++ metricsProject parseFloat post := by
  constructor
  · simp [projectRecord, h]
  · simp [metricsProject, projectRecord, h]

/-- Witness for C4: with quantities `10`, `abc`, `3.5`, the record with
`abc` contributes nothing and the other two are processed as if it were
absent. -/
theorem C4_unparseable_quantity_skipped_witness :
    wParse "abc" = none ∧
    projectRecord wParse wSubAbc = [] ∧
    metricsProject wParse [wSub10, wSubAbc, wSub35] =
      metricsProject wParse [wSub10] ++ metricsProject wParse [wSub35] :=
  ⟨by decide,
   (C4_unparseable_quantity_skipped wParse [wSub10] [wSub35] wSubAbc (by decide)).1,
   (C4_unparseable_quantity_skipped wParse [wSub10] [wSub35] wSubAbc (by decide)).2⟩

/-- Claim C5: a record whose quantity parses produces exactly four gauge
observations: the info gauge at value 1 labeled by contract number,
subscription number, subscription name, status and SKU; the quantity gauge
labeled by subscription number at the parsed value; and the start and end
gauges labeled by subscription number at the Unix-epoch seconds of the
start and end timestamps. -/
theorem C5_four_gauges (parseFloat : String → Option ℚ) (s : Subscription) (q : ℚ)
    (h : parseFloat s.Quantity = some q) :
    projectRecord parseFloat s =
      [ .info s.ContractNumber s.SubscriptionNumber s.SubscriptionName s.Status s.SKU 1,
        .quantity s.SubscriptionNumber q,
        .start s.SubscriptionNumber (s.StartDate : ℚ),
        .endTime s.SubscriptionNumber (s.EndDate : ℚ) ] := by
  simp [projectRecord, h]

/-- Witness for C5: the record with quantity `10` yields precisely its four
gauge observations. -/
theorem C5_four_gauges_witness :
    wParse wSub10.Quantity = some 10 ∧
    projectRecord wParse wSub10 =
      [ .info wSub10.ContractNumber wSub10.SubscriptionNumber wSub10.SubscriptionName
          wSub10.Status wSub10.SKU 1,
        .quantity wSub10.SubscriptionNumber 10,
        .start wSub10.SubscriptionNumber (wSub10.StartDate : ℚ),
        .endTime wSub10.SubscriptionNumber (wSub10.EndDate : ℚ) ] :=
  ⟨by decide, C5_four_gauges wParse wSub10 10 (by decide)⟩

/-- Claim C8: in import mode the fetch issues exactly one GET request to
the configured URL, and the basic-authentication header is attached if and
only if both the username and the password are non-empty. -/
theorem C8_import_request (url u p : String) :
    importFetchRequests url u p = [importRequest url u p] ∧
    (importFetchRequests url u p).length = 1 ∧
    (importRequest url u p).method = "GET" ∧
    (importRequest url u p).url = url ∧
    ((importRequest url u p).basicAuth = some (u, p) ↔ (u ≠ "" ∧ p ≠ "")) ∧
    (u = "" ∨ p = "" → (importRequest url u p).basicAuth = none) := by
  refine ⟨rfl, rfl, rfl, rfl, ?_, ?_⟩
  · by_cases hc : u ≠ "" ∧ p ≠ "" <;> simp [importRequest, hc]
  · intro h
    have hc : ¬ (u ≠ "" ∧ p ≠ "") := by tauto
    simp [importRequest, hc]

/-- Witness for C8: no credentials means no auth header; both credentials
set means they are attached. -/
theorem C8_import_request_witness :
    (importRequest "http://example.com/subs.json" "" "").basicAuth = none ∧
    (importRequest "http://example.com/subs.json" "alice" "hunter2").basicAuth =
      some ("alice", "hunter2") :=
  ⟨(C8_import_request "http://example.com/subs.json" "" "").2.2.2.2.2 (Or.inl rfl),
   ((C8_import_request "http://example.com/subs.json" "alice" "hunter2").2.2.2.2.1).mpr
     ⟨by decide, by decide⟩⟩

/-- Claim C10: the offline token is required unconditionally: with
`RH_OFFLINE_TOKEN` unset, `main` exits (status 1) before any fetch, for
every flag combination — including flags selecting import mode, where the
client is built without OAuth2 and the token is never used. -/
theorem C10_token_required_unconditionally (env : String → String) (flags : Flags)
    (h : env "RH_OFFLINE_TOKEN" = "") :
    goMain env flags = .missingToken ∧
    (∀ token tokenUrl jsonUrl, jsonUrl ≠ "" → buildClient token tokenUrl jsonUrl = .plain) := by
  constructor
  · simp [goMain, getEnv, h]
  · intro token tokenUrl jsonUrl hj
    simp [buildClient, hj]

/-- Witness for C10: the empty environment with import-mode flags exits at
startup, although the import client would never use the token. -/
theorem C10_token_required_unconditionally_witness :
    goMain wEnvUnset wImportFlags = .missingToken ∧
    buildClient "tok" DefaultTokenURL wImportFlags.importUrl = .plain :=
  ⟨(C10_token_required_unconditionally wEnvUnset wImportFlags rfl).1,
   (C10_token_required_unconditionally wEnvUnset wImportFlags rfl).2
     "tok" DefaultTokenURL wImportFlags.importUrl (by decide)⟩

/-- Claim C3 fails on the code: `main` never consults `RH_EXPORT_FILE`,
`RH_IMPORT_URL`, `RH_IMPORT_USERNAME` or `RH_IMPORT_PASSWORD` — the four
flag-backed settings are passed to `metricsLoop` straight from the flags,
so an environment that sets all four overrides is ignored whenever the
flags are at their defaults.  (The README documents these overrides, so
this is a divergence of the code from its own documentation.) -/
theorem C3_env_overrides_ignored :
    wEnvOverrides "RH_EXPORT_FILE" = "subs.json" ∧
    wEnvOverrides "RH_IMPORT_URL" = "http://example.com/subs.json" ∧
    wEnvOverrides "RH_IMPORT_USERNAME" = "alice" ∧
    wEnvOverrides "RH_IMPORT_PASSWORD" = "hunter2" ∧
    (mainConfig wEnvOverrides wEmptyFlags).exportFile = "" ∧
    (mainConfig wEnvOverrides wEmptyFlags).jsonUrl = "" ∧
    (mainConfig wEnvOverrides wEmptyFlags).jsonUser = "" ∧
    (mainConfig wEnvOverrides wEmptyFlags).jsonPass = "" :=
  ⟨rfl, rfl, rfl, rfl, rfl, rfl, rfl, rfl⟩

/-- Marshalling then unmarshalling one pool entry is the identity. -/
lemma unmarshalPool_marshalPool (p : Pool) : unmarshalPool (marshalPool p) = some p := by
  cases p
  rfl

/-- Marshalling then unmarshalling a pool list is the identity. -/
lemma unmarshalList_marshalPool (ps : List Pool) :
    unmarshalList unmarshalPool (ps.map marshalPool) = some ps := by
  induction ps with
  | nil => rfl
  | cons p rest ih => simp [unmarshalList, unmarshalPool_marshalPool p, ih]

/-- Marshalling then unmarshalling one subscription record is the
identity, field for field. -/
lemma unmarshalSubscription_marshalSubscription (s : Subscription) :
    unmarshalSubscription (marshalSubscription s) = some s := by
  cases s with
  | mk c e q sku st status name num pools =>
      simp [marshalSubscription, unmarshalSubscription, fieldString, fieldTime,
        fieldPools, lookupField, unmarshalList_marshalPool]

/-- Marshalling then unmarshalling a record list elementwise is the
identity. -/
lemma unmarshalList_marshalSubscription (subs : List Subscription) :
    unmarshalList unmarshalSubscription (subs.map marshalSubscription) = some subs := by
  induction subs with
  | nil => rfl
  | cons s rest ih =>
      simp [unmarshalList, unmarshalSubscription_marshalSubscription s, ih]

/-- Claim C6: export mode's serialization fed back through the import
path's parse reproduces the record set field for field — export followed
by importing is the identity on subscription lists. -/
theorem C6_export_import_round_trip (subs : List Subscription) :
    unmarshalSubscriptions (marshalIndentSubs subs) = some subs := by
  simp [unmarshalSubscriptions, marshalIndentSubs, unmarshalList_marshalSubscription]

/-- Claim C7: with an export path configured the program performs exactly
one fetch; on success it writes the record list to that path as the JSON
array of exactly N objects carrying the source field names, and exits with
status 0; a fetch or write failure exits non-zero with nothing recorded as
successfully written. -/
theorem C7_export_mode (write : String → Json → Bool) (path : String) :
    (∀ subs : List Subscription,
      (runExportMode (.ok subs) write path).fetchCount = 1 ∧
      (write path (marshalIndentSubs subs) = true →
        (runExportMode (.ok subs) write path).written = some (path, marshalIndentSubs subs) ∧
        (runExportMode (.ok subs) write path).exitCode = 0) ∧
      (write path (marshalIndentSubs subs) = false →
        (runExportMode (.ok subs) write path).written = none ∧
        (runExportMode (.ok subs) write path).exitCode ≠ 0) ∧
      (∃ elems, marshalIndentSubs subs = .arr elems ∧ elems.length = subs.length ∧
        ∀ j ∈ elems, jsonObjKeys j =
          some ["contractNumber", "endDate", "quantity", "sku", "startDate",
                "status", "subscriptionName", "subscriptionNumber", "pools"])) ∧
    (∀ e : FetchError,
      (runExportMode (.error e) write path).fetchCount = 1 ∧
      (runExportMode (.error e) write path).written = none ∧
      (runExportMode (.error e) write path).exitCode ≠ 0) := by
  constructor
  · intro subs
    refine ⟨?_, ?_, ?_, subs.map marshalSubscription, rfl, by simp, ?_⟩
    · by_cases hw : write path (marshalIndentSubs subs) = true
      · simp [runExportMode, hw]
      · simp [runExportMode, hw]
    · intro hw
      simp [runExportMode, hw]
    · intro hw
      simp [runExportMode, hw]
    · intro j hj
      obtain ⟨s, _, rfl⟩ := List.mem_map.mp hj
      rfl
  · intro e
    exact ⟨rfl, rfl, by simp [runExportMode]⟩

/-- Witness for C7: a one-record fetch with a succeeding write exits 0
having written the one-object array; a failed fetch exits non-zero. -/
theorem C7_export_mode_witness :
    (runExportMode (.ok [wSub]) wWriteOk "subs.json").exitCode = 0 ∧
    (runExportMode (.ok [wSub]) wWriteOk "subs.json").written =
      some ("subs.json", marshalIndentSubs [wSub]) ∧
    (runExportMode (.ok [wSub]) wWriteOk "subs.json").fetchCount = 1 ∧
    (runExportMode (.error .requestFailed) wWriteOk "subs.json").exitCode ≠ 0 := by
  have h := C7_export_mode wWriteOk "subs.json"
  obtain ⟨ha, hb, _, _⟩ := h.1 [wSub]
  exact ⟨(hb rfl).2, (hb rfl).1, ha, (h.2 .requestFailed).2.2⟩

end Rhse
